import Mathlib

/-!
Shallow embedding of pack.go from the gitgo repository.

The file embeds the object-resolution core: the packObject descriptor, the
packObjectType enumeration, the Patch delta resolver, the normalize type
dispatcher, and the pack-locator search (searchPacks, listPackfiles,
objInPacks).  External collaborators (patchDelta composed with ReadAll,
parseCommit, parseTree, parseBlob, os.Open, VerifyPack, ReadDir) are taken
as function parameters, since their code lives outside this core.

Go slices of bytes are modelled as Option (List Nat): a nil slice is none,
a non-nil slice is some of its elements.  Go errors are modelled by GErr,
with one constructor per fmt.Errorf site of pack.go; errors coming back
from external collaborators are injected through GErr.wrap, so they are
always distinct values from the errors pack.go itself constructs.  Pointer
mutation of descriptors through the resolution dictionary is modelled by
returning the updated descriptor together with the dictionary rewritten at
the key equal to the descriptor name (the dictionary invariant of the
system: the entry stored under a name is the descriptor carrying that
name).  The unbounded Go recursion of Patch is modelled with an explicit
fuel argument; running out of fuel yields a distinguished wrapped error,
and every theorem below supplies enough fuel for the chain it examines.
The no-op debugging conditional on one hardcoded hash at the top of Patch
has no state effect and is omitted.
-/

/-- SHA is the content hash type of the repository, a hex string. -/
abbrev SHA := String

/-- Numeric value of OBJ_COMMIT in the packObjectType iota enumeration. -/
def OBJ_COMMIT : Nat := 1

/-- Numeric value of OBJ_TREE. -/
def OBJ_TREE : Nat := 2

/-- Numeric value of OBJ_BLOB. -/
def OBJ_BLOB : Nat := 3

/-- Numeric value of OBJ_TAG. -/
def OBJ_TAG : Nat := 4

/-- Numeric value of OBJ_OFS_DELTA; the value 5 is skipped by the iota. -/
def OBJ_OFS_DELTA : Nat := 6

/-- Numeric value of OBJ_REF_DELTA. -/
def OBJ_REF_DELTA : Nat := 7

/-- packObject is the per-object descriptor decoded from an archive.
Field defaults are the Go zero values. -/
structure packObject where
  Name : SHA := ""
  Offset : Int := 0
  Data : Option (List Nat) := none
  _type : Nat := 0
  PatchedData : Option (List Nat) := none
  Size : Int := 0
  SizeInPackfile : Int := 0
  negativeOffset : Int := 0
  BaseObjectName : SHA := ""
  BaseObjectType : Nat := 0
  baseOffset : Int := 0
  Depth : Int := 0
  err : Option String := none
deriving DecidableEq

/-- GErr models Go error values produced in pack.go.  Each constructor other
than wrap corresponds to one fmt.Errorf site; wrap injects an error string
returned by an external collaborator. -/
inductive GErr where
  | wrap (msg : String)
  | baseNil
  | unknownBase (name : SHA)
  | notFound (object : SHA)
  | notCommit (t : String)
  | notTree (t : String)
  | notBlob (t : String)
deriving DecidableEq

/-- typeString renders a packObjectType the way the generated stringer does. -/
def typeString (t : Nat) : String :=
  if t = 1 then "OBJ_COMMIT"
  else if t = 2 then "OBJ_TREE"
  else if t = 3 then "OBJ_BLOB"
  else if t = 4 then "OBJ_TAG"
  else if t = 6 then "OBJ_OFS_DELTA"
  else if t = 7 then "OBJ_REF_DELTA"
  else "packObjectType(" ++ toString t ++ ")"

/-- PatchedType reports the original kind for full-content descriptors and
the inherited BaseObjectType for delta kinds. -/
def packObject.PatchedType (p : packObject) : Nat :=
  if p._type < OBJ_OFS_DELTA then p._type else p.BaseObjectType

/-- patchedLen is the Go expression len(p.PatchedData): a nil slice has
length zero. -/
def patchedLen (p : packObject) : Nat :=
  match p.PatchedData with
  | none => 0
  | some bs => bs.length

/-- Dict is the resolution dictionary, the Go map from SHA to descriptor
pointer, modelled as an association list. -/
abbrev Dict := List (SHA × packObject)

/-- lookupDict is map indexing: the value stored at the first matching key. -/
def lookupDict (dict : Dict) (k : SHA) : Option packObject :=
  match dict with
  | [] => none
  | (k', v) :: rest => if k' = k then some v else lookupDict rest k

/-- updateDict rewrites every entry whose key is k, modelling mutation of
the descriptor that the dictionary stores under that key. -/
def updateDict (dict : Dict) (k : SHA) (v : packObject) : Dict :=
  dict.map (fun kv => if kv.1 = k then (k, v) else kv)

/-- patch embeds packObject.Patch.  The applyDelta parameter is the external
patchDelta collaborator composed with ReadAll, both of which live outside
pack.go.  The fuel argument models the Go call stack; the source recursion
has no guard, so callers here supply fuel at least the delta-chain length
plus one. -/
def patch (applyDelta : List Nat → List Nat → Except String (List Nat)) :
    Nat → packObject → Dict → Except GErr (packObject × Dict)
  | 0, _, _ => .error (.wrap "recursion fuel exhausted")
  | fuel + 1, p, dict =>
    if patchedLen p ≠ 0 then
      .ok (p, dict)
    else if p._type < OBJ_OFS_DELTA then
      match p.Data with
      | none => .error .baseNil
      | some d =>
        let p' : packObject := { p with PatchedData := some d, BaseObjectType := p._type }
        .ok (p', updateDict dict p.Name p')
    else
      match lookupDict dict p.BaseObjectName with
      | none => .error (.unknownBase p.BaseObjectName)
      | some base =>
        match patch applyDelta fuel base dict with
        | .error e => .error e
        | .ok (base', dict') =>
          match applyDelta (base'.PatchedData.getD []) (p.Data.getD []) with
          | .error e => .error (.wrap e)
          | .ok res =>
            let p' : packObject :=
              { p with PatchedData := some res, BaseObjectType := base'.BaseObjectType,
                       Depth := p.Depth + base'.Depth }
            .ok (p', updateDict dict' p.Name p')

/-- fullResolved is the descriptor produced by the full-content branch of
patch: payload copied from Data, resolved kind set to the own kind. -/
def fullResolved (p : packObject) (d : List Nat) : packObject :=
  { p with PatchedData := some d, BaseObjectType := p._type }

/-- deltaResolved is the descriptor produced by the delta branch of patch:
payload from the delta application, kind and depth taken from the resolved
base (the depth by compound addition onto the prior own value). -/
def deltaResolved (p base : packObject) (res : List Nat) : packObject :=
  { p with PatchedData := some res, BaseObjectType := base.BaseObjectType,
           Depth := p.Depth + base.Depth }

/-- getDepth projects the Depth field out of a successful patch result. -/
def getDepth (r : Except GErr (packObject × Dict)) : Option Int :=
  match r with
  | .ok (q, _) => some q.Depth
  | .error _ => none

/-- GitObject is the interface value returned by normalize, modelled as a
tagged union over the three external parser result types and the raw
descriptor itself. -/
inductive GitObject (C T B : Type) where
  | commitObj (c : C)
  | treeObj (t : T)
  | blobObj (b : B)
  | packObj (p : packObject)

/-- Commit embeds the packObject.Commit accessor.  parseCommit is the
external commit parser; it receives the patched bytes, the decimal size
string and the object name.  On a kind mismatch the descriptor is returned
unmodified with the mismatch error. -/
def packObject.Commit {C : Type} (parseCommit : List Nat → String → SHA → Except String C)
    (basedir : String) (p : packObject) : packObject × Except GErr C :=
  if p._type ≠ OBJ_COMMIT then
    (p, .error (.notCommit (typeString p._type)))
  else
    let p1 := if p.PatchedData = none then { p with PatchedData := p.Data } else p
    match parseCommit (p1.PatchedData.getD []) (toString p1.Size) p1.Name with
    | .ok c => (p1, .ok c)
    | .error e => (p1, .error (.wrap e))

/-- Tree embeds the packObject.Tree accessor. -/
def packObject.Tree {T : Type} (parseTree : List Nat → String → String → Except String T)
    (basedir : String) (p : packObject) : packObject × Except GErr T :=
  if p._type ≠ OBJ_TREE then
    (p, .error (.notTree (typeString p._type)))
  else
    let p1 := if p.PatchedData = none then { p with PatchedData := p.Data } else p
    match parseTree (p1.PatchedData.getD []) (toString p1.Size) basedir with
    | .ok t => (p1, .ok t)
    | .error e => (p1, .error (.wrap e))

/-- Blob embeds the packObject.Blob accessor. -/
def packObject.Blob {B : Type} (parseBlob : List Nat → String → Except String B)
    (basedir : String) (p : packObject) : packObject × Except GErr B :=
  if p._type ≠ OBJ_BLOB then
    (p, .error (.notBlob (typeString p._type)))
  else
    let p1 := if p.PatchedData = none then { p with PatchedData := p.Data } else p
    match parseBlob (p1.PatchedData.getD []) basedir with
    | .ok b => (p1, .ok b)
    | .error e => (p1, .error (.wrap e))

/-- normalize embeds packObject.normalize: the switch statement on the
original field named underscore-type, routing to the Commit, Tree or Blob
accessor and otherwise returning the descriptor itself. -/
def packObject.normalize {C T B : Type}
    (parseCommit : List Nat → String → SHA → Except String C)
    (parseTree : List Nat → String → String → Except String T)
    (parseBlob : List Nat → String → Except String B)
    (basedir : String) (p : packObject) : packObject × Except GErr (GitObject C T B) :=
  if p._type = OBJ_COMMIT then
    let r := p.Commit parseCommit basedir
    (r.1, r.2.map GitObject.commitObj)
  else if p._type = OBJ_TREE then
    let r := p.Tree parseTree basedir
    (r.1, r.2.map GitObject.treeObj)
  else if p._type = OBJ_BLOB then
    let r := p.Blob parseBlob basedir
    (r.1, r.2.map GitObject.blobObj)
  else
    (p, .ok (GitObject.packObj p))

/-- FS bundles the external filesystem and verifier collaborators used by
the pack locator: ReadDir over a directory path, os.Open returning a handle
(modelled by the opened path), and VerifyPack over the two handles. -/
structure FS where
  readDir : String → Except String (List String)
  openFile : String → Except String String
  verifyPack : String → String → Except String (List packObject)

/-- packPath is path.Join(basedir, "objects", "pack", name + ".pack"). -/
def packPath (basedir : String) (name : SHA) : String :=
  basedir ++ "/objects/pack/" ++ name ++ ".pack"

/-- idxPath is path.Join(basedir, "objects", "pack", name + ".idx"). -/
def idxPath (basedir : String) (name : SHA) : String :=
  basedir ++ "/objects/pack/" ++ name ++ ".idx"

/-- hasPre is strings.HasPrefix: the query is a prefix of the name. -/
def hasPre (s pre : String) : Bool :=
  pre.data.isPrefixOf s.data

/-- trimSuffix is strings.TrimSuffix over the character list of the string:
the string without the suffix when the suffix is present, the string
itself otherwise. -/
def trimSuffix (s suff : String) : String :=
  if suff.data.isSuffixOf s.data then
    String.mk (s.data.take (s.data.length - suff.data.length))
  else s

/-- listPackfiles embeds listPackfiles: read the pack directory and keep
the base name of every file carrying the .pack suffix. -/
def listPackfiles (fs : FS) (basedir : String) : Except String (List SHA) :=
  match fs.readDir (basedir ++ "/objects/pack") with
  | .error e => .error e
  | .ok files =>
    .ok (files.filterMap (fun f =>
      let base := trimSuffix f ".pack"
      if base = f then none else some base))

/-- scanArchive is the per-archive body of objInPacks: open the two
companion files and hand them to VerifyPack. -/
def scanArchive (fs : FS) (basedir : String) (name : SHA) :
    Except String (List packObject) :=
  match fs.openFile (packPath basedir name) with
  | .error e => .error e
  | .ok pf =>
    match fs.openFile (idxPath basedir name) with
    | .error e => .error e
    | .ok inf => fs.verifyPack pf inf

/-- findFirst is the inner scan of objInPacks: the first descriptor whose
name has the query as a prefix. -/
def findFirst (object : SHA) (objs : List packObject) : Option packObject :=
  objs.find? (fun o => hasPre o.Name object)

/-- objInPacks embeds objInPacks: walk the archives in order, abort on any
archive error, return the first matching descriptor, and fail with the
not-found error only when every archive has been scanned. -/
def objInPacks (fs : FS) (packs : List SHA) (object : SHA) (basedir : String) :
    Except GErr packObject :=
  match packs with
  | [] => .error (.notFound object)
  | name :: rest =>
    match scanArchive fs basedir name with
    | .error e => .error (.wrap e)
    | .ok objs =>
      match findFirst object objs with
      | some o => .ok o
      | none => objInPacks fs rest object basedir

/-- searchPacks embeds searchPacks, the public entry point of the locator. -/
def searchPacks (fs : FS) (object : SHA) (basedir : String) : Except GErr packObject :=
  match listPackfiles fs basedir with
  | .error e => .error (.wrap e)
  | .ok packs => objInPacks fs packs object basedir

/-- Ev is a file-handle event: a successful os.Open of a path, or the Close
of the handle previously opened on that path. -/
inductive Ev where
  | openEv (path : String)
  | closeEv (path : String)
deriving DecidableEq

/-- objInPacksEvLoop is objInPacks instrumented with the handle events the
Go code performs, under Go defer semantics: each successful open pushes a
deferred Close, and all deferred Closes run, most recent first, when the
function returns, on every return path.  The deferred argument holds the
pending close paths, most recent first. -/
def objInPacksEvLoop (fs : FS) (object : SHA) (basedir : String) :
    List SHA → List String → List Ev → Except GErr packObject × List Ev
  | [], deferred, evs => (.error (.notFound object), evs ++ deferred.map Ev.closeEv)
  | name :: rest, deferred, evs =>
    match fs.openFile (packPath basedir name) with
    | .error e => (.error (.wrap e), evs ++ deferred.map Ev.closeEv)
    | .ok pf =>
      let evs1 := evs ++ [Ev.openEv (packPath basedir name)]
      let deferred1 := packPath basedir name :: deferred
      match fs.openFile (idxPath basedir name) with
      | .error e => (.error (.wrap e), evs1 ++ deferred1.map Ev.closeEv)
      | .ok inf =>
        let evs2 := evs1 ++ [Ev.openEv (idxPath basedir name)]
        let deferred2 := idxPath basedir name :: deferred1
        match fs.verifyPack pf inf with
        | .error e => (.error (.wrap e), evs2 ++ deferred2.map Ev.closeEv)
        | .ok objs =>
          match findFirst object objs with
          | some o => (.ok o, evs2 ++ deferred2.map Ev.closeEv)
          | none => objInPacksEvLoop fs object basedir rest deferred2 evs2

/-- objInPacksEv runs the instrumented search from an empty event history. -/
def objInPacksEv (fs : FS) (packs : List SHA) (object : SHA) (basedir : String) :
    Except GErr packObject × List Ev :=
  objInPacksEvLoop fs object basedir packs [] []

/-- The instrumented search computes the same answer as objInPacks; the
instrumentation only adds the event trace. -/
theorem objInPacksEvLoop_fst (fs : FS) (object : SHA) (basedir : String)
    (packs : List SHA) (deferred : List String) (evs : List Ev) :
    (objInPacksEvLoop fs object basedir packs deferred evs).1 =
      objInPacks fs packs object basedir := by
  induction packs generalizing deferred evs with
  | nil => simp [objInPacksEvLoop, objInPacks]
  | cons n tl ih =>
    rcases hpf : fs.openFile (packPath basedir n) with e | pf
    · simp [objInPacksEvLoop, objInPacks, scanArchive, hpf]
    · rcases hinf : fs.openFile (idxPath basedir n) with e | inf
      · simp [objInPacksEvLoop, objInPacks, scanArchive, hpf, hinf]
      · rcases hv : fs.verifyPack pf inf with e | objs
        · simp [objInPacksEvLoop, objInPacks, scanArchive, hpf, hinf, hv]
        · rcases hf : findFirst object objs with _ | o
          · simp [objInPacksEvLoop, objInPacks, scanArchive, hpf, hinf, hv, hf, ih]
          · simp [objInPacksEvLoop, objInPacks, scanArchive, hpf, hinf, hv, hf]

/-- Helper: patch returns at once, changing nothing, when the patched
payload has non-zero length. -/
theorem patch_memo_hit (ad : List Nat → List Nat → Except String (List Nat))
    (fuel : Nat) (p : packObject) (dict : Dict) (h : patchedLen p ≠ 0) :
    patch ad (fuel + 1) p dict = .ok (p, dict) := by
  simp [patch, h]

/-- C3 (amended): resolution is memoized only for a descriptor whose
resolved payload is non-empty; for such a descriptor a further call to
patch returns success immediately and changes neither the payload, the
resolved kind nor the chain depth.  The claim as frozen also covered an
empty resolved payload; the memo check of the source is a length test, so
that case re-runs resolution (see the counterexample). -/
theorem patch_nonempty_payload_memoized
    (ad : List Nat → List Nat → Except String (List Nat))
    (fuel : Nat) (p : packObject) (dict : Dict) (h : patchedLen p ≠ 0) :
    patch ad (fuel + 1) p dict = .ok (p, dict) :=
  patch_memo_hit ad fuel p dict h

/-- Concrete delta descriptor whose resolved payload is set but empty. -/
def c3obj : packObject :=
  { Name := "d", _type := 6, Data := some [], PatchedData := some [],
    BaseObjectName := "b", Depth := 1 }

/-- Dictionary holding the already resolved base of c3obj. -/
def c3dict : Dict :=
  [("b", { Name := "b", _type := 1, PatchedData := some [1],
           BaseObjectType := 1, Depth := 1 })]

/-- C3 counterexample: c3obj has resolvedPayload set (to the empty byte
sequence) and chain depth 1, yet a further call to patch re-runs delta
resolution and writes the chain depth again, producing depth 2.  The
frozen claim said a second call changes none of the fields. -/
theorem patch_rerun_on_empty_payload_cex :
    c3obj.PatchedData = some [] ∧ c3obj.Depth = 1 ∧
      getDepth (patch (fun _ _ => .ok []) 2 c3obj c3dict) = some 2 := by
  refine ⟨rfl, rfl, ?_⟩
  rfl

/-- Helper: one step of patch on an unresolved full-content descriptor with
a present raw payload. -/
theorem patch_full_step (ad : List Nat → List Nat → Except String (List Nat))
    (fuel : Nat) (p : packObject) (dict : Dict) (d : List Nat)
    (hunres : patchedLen p = 0) (hfull : p._type < OBJ_OFS_DELTA)
    (hdata : p.Data = some d) :
    patch ad (fuel + 1) p dict =
      .ok (fullResolved p d, updateDict dict p.Name (fullResolved p d)) := by
  have h1 : ¬ patchedLen p ≠ 0 := by simp [hunres]
  simp [patch, h1, hfull, hdata, fullResolved]

/-- C4 (amended): for a full-content descriptor with a present raw payload
patch succeeds, copies the raw payload into the resolved payload, sets the
resolved kind to the own kind, leaves the chain depth unchanged (the source
never writes Depth on this branch, so the depth is 0 exactly when it was
already 0), and repeated calls return the same resolved descriptor. -/
theorem patch_full_content (ad : List Nat → List Nat → Except String (List Nat))
    (fuel : Nat) (p : packObject) (dict : Dict) (d : List Nat)
    (hunres : patchedLen p = 0) (hfull : p._type < OBJ_OFS_DELTA)
    (hdata : p.Data = some d) :
    patch ad (fuel + 1) p dict =
        .ok (fullResolved p d, updateDict dict p.Name (fullResolved p d)) ∧
      (fullResolved p d).PatchedData = some d ∧
      (fullResolved p d).BaseObjectType = p._type ∧
      (fullResolved p d).Depth = p.Depth ∧
      ∀ fuel' dict', ∃ dict2,
        patch ad (fuel' + 1) (fullResolved p d) dict' = .ok (fullResolved p d, dict2) := by
  refine ⟨patch_full_step ad fuel p dict d hunres hfull hdata, rfl, rfl, rfl, ?_⟩
  intro fuel' dict'
  by_cases hd : d = []
  · subst hd
    have h2 : patchedLen (fullResolved p []) = 0 := rfl
    have h3 : (fullResolved p [])._type < OBJ_OFS_DELTA := hfull
    have h4 : (fullResolved p []).Data = some [] := hdata
    exact ⟨updateDict dict' p.Name (fullResolved p []),
      patch_full_step ad fuel' (fullResolved p []) dict' [] h2 h3 h4⟩
  · refine ⟨dict', ?_⟩
    have h5 : patchedLen (fullResolved p d) ≠ 0 := by
      simp [fullResolved, patchedLen]
      exact hd
    exact patch_memo_hit ad fuel' _ dict' h5

/-- Concrete full-content descriptor arriving with a non-zero Depth field. -/
def c4obj : packObject := { Name := "f", _type := 3, Data := some [5], Depth := 7 }

/-- C4 counterexample: resolving the full-content descriptor c4obj
succeeds, but the chain depth afterwards is 7, not 0: the source never
writes Depth on the full-content branch, while the frozen claim said
resolution sets chainDepth to 0. -/
theorem patch_full_content_depth_cex :
    c4obj._type = OBJ_BLOB ∧ c4obj.Data = some [5] ∧
      getDepth (patch (fun _ _ => .ok []) 1 c4obj []) = some 7 ∧
      getDepth (patch (fun _ _ => .ok []) 1 c4obj []) ≠ some 0 := by
  exact ⟨rfl, rfl, rfl, by decide⟩

/-- C2 (amended): for a delta descriptor whose base is found and resolves
successfully, and whose delta application succeeds, the new chain depth is
the sum of the prior own Depth field and the resolved base depth (the
source uses a compound addition assignment), not the base depth alone. -/
theorem patch_delta_depth_accumulates
    (ad : List Nat → List Nat → Except String (List Nat)) (fuel : Nat)
    (p base base' : packObject) (dict dict' : Dict) (res : List Nat)
    (hunres : patchedLen p = 0) (hdelta : OBJ_OFS_DELTA ≤ p._type)
    (hbase : lookupDict dict p.BaseObjectName = some base)
    (hrec : patch ad fuel base dict = .ok (base', dict'))
    (happ : ad (base'.PatchedData.getD []) (p.Data.getD []) = .ok res) :
    getDepth (patch ad (fuel + 1) p dict) = some (p.Depth + base'.Depth) := by
  have h1 : ¬ patchedLen p ≠ 0 := by simp [hunres]
  have h2 : ¬ p._type < OBJ_OFS_DELTA := Nat.not_lt.mpr hdelta
  simp [patch, h1, h2, hbase, hrec, happ, getDepth]

/-- Concrete unresolved delta descriptor with prior Depth 1. -/
def c2obj : packObject :=
  { Name := "d", _type := 6, Data := some [], BaseObjectName := "b", Depth := 1 }

/-- Dictionary holding the already resolved base of c2obj, with depth 0. -/
def c2dict : Dict :=
  [("b", { Name := "b", _type := 1, Data := some [1], PatchedData := some [1],
           BaseObjectType := 1, Depth := 0 })]

/-- C2 counterexample: the base of c2obj is resolved with chain depth 0,
resolution of c2obj succeeds, yet the resulting chain depth is 1, not the
base depth: the source adds the base depth to the prior value of the own
Depth field instead of overwriting it. -/
theorem patch_depth_not_base_depth_cex :
    getDepth (patch (fun _ _ => .ok [9]) 2 c2obj c2dict) = some 1 ∧
      (lookupDict c2dict c2obj.BaseObjectName).map packObject.Depth = some 0 ∧
      getDepth (patch (fun _ _ => .ok [9]) 2 c2obj c2dict) ≠
        (lookupDict c2dict c2obj.BaseObjectName).map packObject.Depth := by
  exact ⟨rfl, rfl, by decide⟩

/-- C5 (confirmed): for an unresolved delta descriptor whose base is in the
dictionary and already resolved, patch inherits the resolved kind of the
base and stores the result of the external delta application on the
resolved base payload and the own raw payload; when the delta application
fails, that error is returned wrapped and no resolved state is produced,
so the resolved payload stays unset. -/
theorem patch_delta_with_resolved_base
    (ad : List Nat → List Nat → Except String (List Nat)) (fuel : Nat)
    (p base : packObject) (dict : Dict)
    (hunres : patchedLen p = 0) (hdelta : OBJ_OFS_DELTA ≤ p._type)
    (hbase : lookupDict dict p.BaseObjectName = some base)
    (hbres : patchedLen base ≠ 0) :
    (∀ res, ad (base.PatchedData.getD []) (p.Data.getD []) = .ok res →
        patch ad (fuel + 1 + 1) p dict =
          .ok (deltaResolved p base res,
            updateDict dict p.Name (deltaResolved p base res))) ∧
    (∀ e, ad (base.PatchedData.getD []) (p.Data.getD []) = .error e →
        patch ad (fuel + 1 + 1) p dict = .error (.wrap e)) := by
  have h1 : ¬ patchedLen p ≠ 0 := by simp [hunres]
  have h2 : ¬ p._type < OBJ_OFS_DELTA := Nat.not_lt.mpr hdelta
  constructor
  · intro res hres
    simp [patch, h1, h2, hbase, hbres, hres, deltaResolved]
  · intro e he
    simp [patch, h1, h2, hbase, hbres, he]

/-- Concrete unresolved delta descriptor for the C5 witness. -/
def c5obj : packObject :=
  { Name := "d", _type := 6, Data := some [2], BaseObjectName := "b" }

/-- Dictionary holding the resolved base of c5obj. -/
def c5dict : Dict :=
  [("b", { Name := "b", _type := 1, PatchedData := some [1], BaseObjectType := 1 })]

/-- Witness for C5: with a delta application that concatenates base and
delta bytes, resolving c5obj yields payload base-byte then delta-byte and
the resolved kind of the base. -/
theorem patch_delta_with_resolved_base_witness :
    patch (fun b d => .ok (b ++ d)) 2 c5obj c5dict =
      .ok ({ c5obj with PatchedData := some [1, 2], BaseObjectType := 1, Depth := 0 },
        c5dict) :=
  (patch_delta_with_resolved_base (fun b d => .ok (b ++ d)) 0 c5obj
      { Name := "b", _type := 1, PatchedData := some [1], BaseObjectType := 1 }
      c5dict rfl (by decide) rfl (by decide)).1 [1, 2] rfl

/-- C6 (confirmed): resolving an unresolved delta descriptor whose base
identity is absent from the dictionary fails with the unknown-base error;
no resolved state is produced, so the descriptor is unchanged and its
resolved payload stays unset. -/
theorem patch_unknown_base_error
    (ad : List Nat → List Nat → Except String (List Nat)) (fuel : Nat)
    (p : packObject) (dict : Dict)
    (hunres : patchedLen p = 0) (hdelta : OBJ_OFS_DELTA ≤ p._type)
    (hmiss : lookupDict dict p.BaseObjectName = none) :
    patch ad (fuel + 1) p dict = .error (.unknownBase p.BaseObjectName) := by
  have h1 : ¬ patchedLen p ≠ 0 := by simp [hunres]
  have h2 : ¬ p._type < OBJ_OFS_DELTA := Nat.not_lt.mpr hdelta
  simp [patch, h1, h2, hmiss]

/-- Witness for C6 at a concrete delta descriptor and empty dictionary. -/
theorem patch_unknown_base_error_witness :
    patch (fun _ _ => .ok []) 1
        { Name := "d", _type := 6, BaseObjectName := "b", Data := some [0] } [] =
      .error (.unknownBase "b") :=
  patch_unknown_base_error (fun _ _ => .ok []) 0
    { Name := "d", _type := 6, BaseObjectName := "b", Data := some [0] } []
    rfl (by decide) rfl

/-- Witness for C4 at a concrete tree descriptor with payload bytes 3, 4. -/
theorem patch_full_content_witness :
    patch (fun _ _ => .ok []) 1 { Name := "t", _type := 2, Data := some [3, 4] } [] =
      .ok (fullResolved { Name := "t", _type := 2, Data := some [3, 4] } [3, 4], []) :=
  (patch_full_content (fun _ _ => .ok []) 0
    { Name := "t", _type := 2, Data := some [3, 4] } [] [3, 4]
    rfl (by decide) rfl).1

/-- Witness for C2 (amended) at a concrete chain: prior own depth 0 and
resolved base depth 2 give chain depth 2. -/
theorem patch_delta_depth_accumulates_witness :
    getDepth (patch (fun _ _ => .ok [9]) 2
      { Name := "d", _type := 6, Data := some [], BaseObjectName := "b" }
      [("b", { Name := "b", _type := 1, PatchedData := some [1],
               BaseObjectType := 1, Depth := 2 })]) = some 2 :=
  patch_delta_depth_accumulates (fun _ _ => .ok [9]) 1
    { Name := "d", _type := 6, Data := some [], BaseObjectName := "b" }
    { Name := "b", _type := 1, PatchedData := some [1], BaseObjectType := 1, Depth := 2 }
    { Name := "b", _type := 1, PatchedData := some [1], BaseObjectType := 1, Depth := 2 }
    [("b", { Name := "b", _type := 1, PatchedData := some [1],
             BaseObjectType := 1, Depth := 2 })]
    [("b", { Name := "b", _type := 1, PatchedData := some [1],
             BaseObjectType := 1, Depth := 2 })]
    [9] rfl (by decide) rfl rfl rfl

/-- Witness for C3 (amended) at a concrete resolved descriptor. -/
theorem patch_nonempty_payload_memoized_witness :
    patch (fun _ _ => .ok []) 1 { Name := "m", _type := 3, PatchedData := some [1] } [] =
      .ok ({ Name := "m", _type := 3, PatchedData := some [1] }, []) :=
  patch_nonempty_payload_memoized (fun _ _ => .ok []) 0
    { Name := "m", _type := 3, PatchedData := some [1] } [] (by decide)

/-- Concrete resolved delta descriptor: original kind is REF_DELTA, the
resolved kind inherited from the chain root is COMMIT. -/
def c1obj : packObject :=
  { Name := "d", _type := 7, BaseObjectType := 1, PatchedData := some [1] }

/-- C1 counterexample: c1obj has completed resolution and its resolved kind
(PatchedType) is OBJ_COMMIT, yet normalize returns it as a generic pack
object instead of routing it to the commit parser: the source switch reads
the original kind field, never the resolved kind. -/
theorem normalize_delta_generic_cex :
    c1obj.PatchedType = OBJ_COMMIT ∧
      packObject.normalize (fun _ _ _ => Except.ok (0 : Nat))
          (fun _ _ _ => Except.ok (0 : Nat)) (fun _ _ => Except.ok (0 : Nat)) "" c1obj =
        (c1obj, .ok (GitObject.packObj c1obj)) := by
  exact ⟨rfl, rfl⟩

/-- C1 (amended): normalize dispatches on the original kind field in every
case; a delta-kind descriptor is returned as a generic object no matter
what its resolved kind (PatchedType, which reports BaseObjectType for
delta kinds) is, and the resolved kind is never consulted. -/
theorem normalize_dispatches_on_original_kind {C T B : Type}
    (parseCommit : List Nat → String → SHA → Except String C)
    (parseTree : List Nat → String → String → Except String T)
    (parseBlob : List Nat → String → Except String B)
    (basedir : String) (p : packObject) (hdelta : OBJ_OFS_DELTA ≤ p._type) :
    packObject.normalize parseCommit parseTree parseBlob basedir p =
        (p, .ok (GitObject.packObj p)) ∧
      p.PatchedType = p.BaseObjectType := by
  have h1 : p._type ≠ OBJ_COMMIT := by
    simp only [OBJ_COMMIT, OBJ_OFS_DELTA] at hdelta ⊢; omega
  have h2 : p._type ≠ OBJ_TREE := by
    simp only [OBJ_TREE, OBJ_OFS_DELTA] at hdelta ⊢; omega
  have h3 : p._type ≠ OBJ_BLOB := by
    simp only [OBJ_BLOB, OBJ_OFS_DELTA] at hdelta ⊢; omega
  have h4 : ¬ p._type < OBJ_OFS_DELTA := Nat.not_lt.mpr hdelta
  refine ⟨?_, ?_⟩
  · simp [packObject.normalize, h1, h2, h3]
  · simp [packObject.PatchedType, h4]

/-- Witness for C1 (amended) at a concrete offset-delta descriptor whose
resolved kind is OBJ_TREE. -/
theorem normalize_dispatches_on_original_kind_witness :
    packObject.normalize (fun _ _ _ => Except.ok (0 : Nat))
        (fun _ _ _ => Except.ok (0 : Nat)) (fun _ _ => Except.ok (0 : Nat)) "base"
        { Name := "x", _type := 6, BaseObjectType := 2 } =
      ({ Name := "x", _type := 6, BaseObjectType := 2 },
        .ok (GitObject.packObj { Name := "x", _type := 6, BaseObjectType := 2 })) ∧
      ({ Name := "x", _type := 6, BaseObjectType := 2 } : packObject).PatchedType = 2 :=
  normalize_dispatches_on_original_kind (fun _ _ _ => Except.ok (0 : Nat))
    (fun _ _ _ => Except.ok (0 : Nat)) (fun _ _ => Except.ok (0 : Nat)) "base"
    { Name := "x", _type := 6, BaseObjectType := 2 } (by decide)

/-- Helper: archives that scan cleanly and yield no match are skipped
without affecting the rest of the search. -/
theorem objInPacks_skip_clean (fs : FS) (object : SHA) (basedir : String)
    (pre tail : List SHA)
    (hpre : ∀ n ∈ pre, ∃ l, scanArchive fs basedir n = .ok l ∧
      findFirst object l = none) :
    objInPacks fs (pre ++ tail) object basedir = objInPacks fs tail object basedir := by
  induction pre with
  | nil => simp
  | cons n tl ih =>
    obtain ⟨l, hok, hnone⟩ := hpre n (by simp)
    have htl := ih (fun m hm => hpre m (by simp [hm]))
    rw [List.cons_append]
    simp [objInPacks, hok, hnone, htl]

/-- C7 (confirmed): if every archive before some archive A scans cleanly
with no match and A fails (a file fails to open or the verifier rejects
it), the search returns exactly the error of A, whatever archives follow A
in the enumeration (the remainder, rest, is arbitrary and never examined),
and that error is a wrapped collaborator error, never the not-found
error. -/
theorem objInPacks_error_aborts (fs : FS) (pre : List SHA) (name : SHA)
    (rest : List SHA) (object : SHA) (basedir : String) (e : String)
    (hpre : ∀ n ∈ pre, ∃ l, scanArchive fs basedir n = .ok l ∧
      findFirst object l = none)
    (herr : scanArchive fs basedir name = .error e) :
    objInPacks fs (pre ++ name :: rest) object basedir = .error (.wrap e) ∧
      GErr.wrap e ≠ GErr.notFound object := by
  refine ⟨?_, fun h => GErr.noConfusion h⟩
  rw [objInPacks_skip_clean fs object basedir pre (name :: rest) hpre]
  simp [objInPacks, herr]

/-- Store for the C7 witness: opening the index file of archive b fails. -/
def c7fs : FS :=
  { readDir := fun _ => .ok []
    openFile := fun path =>
      if path = "d/objects/pack/b.idx" then .error "boom" else .ok path
    verifyPack := fun _ _ => .ok [] }

/-- Witness for C7: with archives a, b, c and the index of b failing to
open, the search stops at b with the wrapped open error. -/
theorem objInPacks_error_aborts_witness :
    objInPacks c7fs ["a", "b", "c"] "q" "d" = .error (.wrap "boom") ∧
      GErr.wrap "boom" ≠ GErr.notFound "q" :=
  objInPacks_error_aborts c7fs ["a"] "b" ["c"] "q" "d" "boom"
    (by
      intro n hn
      simp only [List.mem_singleton] at hn
      subst hn
      exact ⟨[], rfl, rfl⟩)
    rfl

/-- okObjs extracts the object list of a successful scan, and the empty
list from a failed one. -/
def okObjs : Except String (List packObject) → List packObject
  | .ok l => l
  | .error _ => []

/-- concatObjs is the concatenation of the descriptor lists of the given
archives in enumeration order. -/
def concatObjs (fs : FS) (basedir : String) : List SHA → List packObject
  | [] => []
  | n :: rest => okObjs (scanArchive fs basedir n) ++ concatObjs fs basedir rest

/-- Helper: the first match in an appended scan is the first match of the
left part, and otherwise of the right part. -/
theorem findFirst_append (object : SHA) (l1 l2 : List packObject) :
    findFirst object (l1 ++ l2) =
      match findFirst object l1 with
      | some o => some o
      | none => findFirst object l2 := by
  induction l1 with
  | nil => simp [findFirst]
  | cons a tl ih =>
    by_cases hp : hasPre a.Name object
    · simp [findFirst, List.find?, hp]
    · simp only [findFirst, List.cons_append, List.find?] at ih ⊢
      simp only [hp]
      exact ih

/-- C8 (confirmed): when every archive scans successfully, the search
returns the first descriptor, in scan order across the archives, whose
identity has the query as a prefix, and returns the not-found error
exactly when no descriptor of any archive matches, that is, only once
every archive has been scanned. -/
theorem objInPacks_first_match_or_notfound (fs : FS) (packs : List SHA)
    (object : SHA) (basedir : String)
    (h : ∀ n ∈ packs, ∃ l, scanArchive fs basedir n = .ok l) :
    objInPacks fs packs object basedir =
      match findFirst object (concatObjs fs basedir packs) with
      | some o => .ok o
      | none => .error (.notFound object) := by
  induction packs with
  | nil => simp [objInPacks, concatObjs, findFirst, List.find?]
  | cons n tl ih =>
    obtain ⟨l, hok⟩ := h n (by simp)
    have ihh := ih (fun m hm => h m (by simp [hm]))
    have happ := findFirst_append object l (concatObjs fs basedir tl)
    cases hf : findFirst object l with
    | some o =>
      rw [hf] at happ
      simp [objInPacks, concatObjs, hok, okObjs, hf, happ]
    | none =>
      rw [hf] at happ
      simp [objInPacks, concatObjs, hok, okObjs, hf, happ, ihh]

/-- Store for the C8 witness: two archives, the match sits in the second. -/
def c8fs : FS :=
  { readDir := fun _ => .ok []
    openFile := fun path => .ok path
    verifyPack := fun pf _ =>
      if pf = "d/objects/pack/a.pack" then .ok [{ Name := "zz", _type := 3 }]
      else .ok [{ Name := "qq", _type := 3 }] }

/-- Witness for C8: the query q misses archive a and matches the
descriptor qq in archive b. -/
theorem objInPacks_first_match_or_notfound_witness :
    objInPacks c8fs ["a", "b"] "q" "d" = .ok { Name := "qq", _type := 3 } :=
  objInPacks_first_match_or_notfound c8fs ["a", "b"] "q" "d"
    (by
      intro n hn
      simp only [List.mem_cons, List.mem_singleton] at hn
      rcases hn with hn | hn | hn
      · subst hn; exact ⟨[{ Name := "zz", _type := 3 }], rfl⟩
      · subst hn; exact ⟨[{ Name := "qq", _type := 3 }], rfl⟩
      · cases hn)

/-- Store for C9 and C10: archive p1 verifies to an empty list, archive p2
to one matching descriptor; every open succeeds. -/
def c9fs : FS :=
  { readDir := fun _ => .ok ["p1.pack", "p2.pack"]
    openFile := fun path => .ok path
    verifyPack := fun pf _ =>
      if pf = "d/objects/pack/p1.pack" then .ok []
      else .ok [{ Name := "abc", _type := 3, Data := some [1] }] }

/-- C9: the instrumented search shows the Go defer semantics of the source:
both Close calls of archive p1 run only when the function returns, after
archive p2 has already been opened and scanned.  The claim that each
archive releases its handles before the search moves to the next archive
is falsified by this trace; the spec itself flags this accumulation as the
hazard of the original design. -/
theorem objInPacks_handles_closed_at_return :
    objInPacksEv c9fs ["p1", "p2"] "ab" "d" =
      (.ok { Name := "abc", _type := 3, Data := some [1] },
        [Ev.openEv "d/objects/pack/p1.pack", Ev.openEv "d/objects/pack/p1.idx",
         Ev.openEv "d/objects/pack/p2.pack", Ev.openEv "d/objects/pack/p2.idx",
         Ev.closeEv "d/objects/pack/p2.idx", Ev.closeEv "d/objects/pack/p2.pack",
         Ev.closeEv "d/objects/pack/p1.idx", Ev.closeEv "d/objects/pack/p1.pack"]) := by
  rfl

/-- C10 (confirmed): with the empty string as the query, the search returns
the first descriptor of the first archive: every identity has the empty
string as a prefix and no minimum query length is enforced. -/
theorem searchPacks_empty_query (fs : FS) (basedir : String) (name : SHA)
    (rest : List SHA) (o : packObject) (objs : List packObject)
    (hdir : listPackfiles fs basedir = .ok (name :: rest))
    (hscan : scanArchive fs basedir name = .ok (o :: objs)) :
    searchPacks fs "" basedir = .ok o := by
  have hp : hasPre o.Name "" = true := by
    unfold hasPre
    cases hd : o.Name.data with
    | nil => rfl
    | cons c cs => rfl
  simp [searchPacks, hdir, objInPacks, hscan, findFirst, List.find?, hp]

/-- Witness for C10: the store c9fs lists one real packfile name p1 and
one junk entry is absent; querying with the empty string returns the
head descriptor of the first verified archive. -/
def c10fs : FS :=
  { readDir := fun _ => .ok ["p.pack", "junk"]
    openFile := fun path => .ok path
    verifyPack := fun _ _ => .ok [{ Name := "abc", _type := 3 }] }

/-- Witness for C10 at the concrete store c10fs. -/
theorem searchPacks_empty_query_witness :
    searchPacks c10fs "" "d" = .ok { Name := "abc", _type := 3 } :=
  searchPacks_empty_query c10fs "d" "p" [] { Name := "abc", _type := 3 } [] rfl rfl
